import Mathlib

/-!
# BrainBuddy browser client: a shallow embedding of `app.js` and `auth.js`

The two page controllers (`BrainBuddyApp`, `AuthManager`) are embedded as pure functions on
explicit page states.

Modelling conventions.

* A JavaScript string is the list of its UTF-16 code units (`JsString`); `length`, `trim` and
  the regular expression of `validateEmail` all work on code units.
* Values that travel through `JSON.parse` / `response.json()` are `JsValue`s; reading a property
  of `null` or `undefined` throws a `TypeError`.
* A network request is answered by the environment: `Env` gives the outcome of the n-th request
  issued from a page. An `async` method is embedded as the function from the state in which it
  is called to the state in which its promise settles; the requests it issued are appended to
  the page's `fetches` log and each `response.json()` call is counted in `jsonReads`. Where
  the source starts `loadNextProfile()` without awaiting it (`initializeApp`,
  `hideMatchNotification`), the embedding likewise runs the load until it settles.
* An element of the page is kept as the values the controller assigns to it (`style.display`,
  `textContent`, class flags). Conversions of values to text (template literals, DOM text
  properties) and writes to `localStorage` are total.
-/

namespace BrainBuddy

/-! ## JavaScript strings -/

/-- A JavaScript string: its UTF-16 code units. -/
abbrev JsString := List Nat

/-- UTF-16 code units of one Unicode scalar value. -/
def utf16Char (c : Char) : List Nat :=
  if c.toNat < 65536 then [c.toNat]
  else [55296 + (c.toNat - 65536) / 1024, 56320 + (c.toNat - 65536) % 1024]

/-- The JavaScript string written by a literal. -/
def utf16 (s : String) : JsString :=
  s.data.flatMap utf16Char

/-- ECMAScript `WhiteSpace` and `LineTerminator` code units: the set stripped by
`String.prototype.trim` and matched by `\s`. -/
def isWhiteSpace (c : Nat) : Bool :=
  c == 9 || c == 10 || c == 11 || c == 12 || c == 13 || c == 32 || c == 160 ||
  c == 5760 || (8192 ≤ c && c ≤ 8202) || c == 8232 || c == 8233 || c == 8239 ||
  c == 8287 || c == 12288 || c == 65279

/-- Embeds `String.prototype.trim`. -/
def trim (s : JsString) : JsString :=
  ((s.dropWhile isWhiteSpace).reverse.dropWhile isWhiteSpace).reverse

/-! ## JavaScript values -/

/-- Values produced by `JSON.parse`, plus `undefined`. A number is kept as the decimal
`mantissa * 10 ^ exponent` it was written as. -/
inductive JsValue where
  | undefined
  | null
  | bool (b : Bool)
  | num (mantissa : Int) (exponent : Int)
  | str (s : JsString)
  | arr (items : List JsValue)
  | obj (members : List (JsString × JsValue))

/-- Exceptions and promise rejections. -/
inductive JsError where
  | syntaxError
  | typeError
  | httpError (status : Nat)
  | networkError
  | bodyError
  deriving DecidableEq, Repr

/-- Whether the decimal `m * 10 ^ e` denotes the double `0` (or `-0`): it is zero, or it is at
most `2 ^ (-1075)` in magnitude and rounds to zero (`m <<< 1075` is `m * 2 ^ 1075`). -/
def numIsZero (m e : Int) : Bool :=
  m == 0 || (e < 0 && decide (m.natAbs <<< 1075 ≤ 10 ^ (-e).toNat))

/-- ECMAScript `ToBoolean`. -/
def truthy : JsValue → Bool
  | .undefined => false
  | .null => false
  | .bool b => b
  | .num m e => !numIsZero m e
  | .str s => !s.isEmpty
  | .arr _ => true
  | .obj _ => true

/-- The property names this program reads from values. -/
inductive Field where
  | id | name | bio | success | isMatch | message | user | token
  | matchedUser | matchedAt | length
  deriving DecidableEq, Repr

/-- The property name as a string. -/
def Field.key : Field → JsString
  | .id => utf16 "id"
  | .name => utf16 "name"
  | .bio => utf16 "bio"
  | .success => utf16 "success"
  | .isMatch => utf16 "isMatch"
  | .message => utf16 "message"
  | .user => utf16 "user"
  | .token => utf16 "token"
  | .matchedUser => utf16 "matchedUser"
  | .matchedAt => utf16 "matchedAt"
  | .length => utf16 "length"

/-- Own property of an object built by `JSON.parse` (members are kept in insertion order, one
per key). -/
def lookupMember (k : JsString) : List (JsString × JsValue) → JsValue
  | [] => .undefined
  | (k', v) :: rest => if k' = k then v else lookupMember k rest

/-- Property read `v.f` for the names of `Field`: a `TypeError` on `null` and `undefined`,
the own property of an object, `length` of a string or an array, `undefined` otherwise. -/
def getProp (v : JsValue) (f : Field) : Except JsError JsValue :=
  match v with
  | .undefined => .error .typeError
  | .null => .error .typeError
  | .bool _ => .ok .undefined
  | .num _ _ => .ok .undefined
  | .str s => if f = .length then .ok (.num s.length 0) else .ok .undefined
  | .arr items => if f = .length then .ok (.num items.length 0) else .ok .undefined
  | .obj members => .ok (lookupMember f.key members)

/-- The expression `a || b`. -/
def orElse (a b : JsValue) : JsValue :=
  if truthy a then a else b

/-! ## `JSON.parse` -/

/-- JSON insignificant whitespace: space, tab, line feed, carriage return. -/
def skipWs : List Nat → List Nat
  | [] => []
  | c :: rest => if c == 32 || c == 9 || c == 10 || c == 13 then skipWs rest else c :: rest

/-- Decimal digit code units. -/
def isDigit (c : Nat) : Bool := 48 ≤ c && c ≤ 57

/-- Value of a hexadecimal digit code unit. -/
def hexValue (c : Nat) : Option Nat :=
  if 48 ≤ c && c ≤ 57 then some (c - 48)
  else if 97 ≤ c && c ≤ 102 then some (c - 87)
  else if 65 ≤ c && c ≤ 70 then some (c - 55)
  else none

/-- Value of a run of decimal digits. -/
def digitsValue (ds : List Nat) : Nat :=
  ds.foldl (fun acc d => 10 * acc + (d - 48)) 0

/-- The characters of a JSON string after its opening quote, up to the closing quote. -/
def parseStringBody : Nat → List Nat → Option (JsString × List Nat)
  | 0, _ => none
  | _ + 1, [] => none
  | fuel + 1, c :: rest =>
    if c == 34 then some ([], rest)
    else if c == 92 then
      match rest with
      | [] => none
      | e :: rest1 =>
        if e == 117 then
          match rest1 with
          | h1 :: h2 :: h3 :: h4 :: rest2 =>
            match hexValue h1, hexValue h2, hexValue h3, hexValue h4 with
            | some a, some b, some c4, some d =>
              (parseStringBody fuel rest2).map
                (fun r => ((4096 * a + 256 * b + 16 * c4 + d) :: r.1, r.2))
            | _, _, _, _ => none
          | _ => none
        else
          let unit : Option Nat :=
            if e == 34 then some 34 else if e == 92 then some 92 else if e == 47 then some 47
            else if e == 98 then some 8 else if e == 102 then some 12
            else if e == 110 then some 10 else if e == 114 then some 13
            else if e == 116 then some 9 else none
          match unit with
          | none => none
          | some u => (parseStringBody fuel rest1).map (fun r => (u :: r.1, r.2))
    else if c < 32 then none
    else (parseStringBody fuel rest).map (fun r => (c :: r.1, r.2))

/-- Optional fraction part of a JSON number: its digits. -/
def parseFrac (cs : List Nat) : Option (List Nat × List Nat) :=
  match cs with
  | 46 :: rest =>
    let ds := rest.span isDigit
    if ds.1.isEmpty then none else some ds
  | _ => some ([], cs)

/-- Optional exponent part of a JSON number. -/
def parseExp (cs : List Nat) : Option (Int × List Nat) :=
  match cs with
  | [] => some (0, [])
  | c :: rest =>
    if c == 101 || c == 69 then
      let signed : Bool × List Nat :=
        match rest with
        | 45 :: r => (true, r)
        | 43 :: r => (false, r)
        | _ => (false, rest)
      let ds := signed.2.span isDigit
      if ds.1.isEmpty then none
      else some (if signed.1 then - (digitsValue ds.1 : Int) else (digitsValue ds.1 : Int), ds.2)
    else some (0, cs)

/-- A JSON number. -/
def parseNumber (cs : List Nat) : Option (JsValue × List Nat) :=
  let signed : Bool × List Nat :=
    match cs with
    | 45 :: r => (true, r)
    | _ => (false, cs)
  let ints := signed.2.span isDigit
  if ints.1.isEmpty || (decide (1 < ints.1.length) && ints.1.head? == some 48) then none
  else
    match parseFrac ints.2 with
    | none => none
    | some (fracDs, cs3) =>
      match parseExp cs3 with
      | none => none
      | some (e, cs4) =>
        let m : Int := digitsValue (ints.1 ++ fracDs)
        some (.num (if signed.1 then -m else m) (e - fracDs.length), cs4)

/-- Define the property `k` of an object under construction: a repeated key keeps its place
and takes the later value. -/
def setMember (k : JsString) (v : JsValue) :
    List (JsString × JsValue) → List (JsString × JsValue)
  | [] => [(k, v)]
  | (k', v') :: rest => if k' = k then (k, v) :: rest else (k', v') :: setMember k v rest

mutual
/-- A JSON value, after optional whitespace. -/
def parseValue : Nat → List Nat → Option (JsValue × List Nat)
  | 0, _ => none
  | fuel + 1, cs =>
    match skipWs cs with
    | 110 :: 117 :: 108 :: 108 :: rest => some (.null, rest)
    | 116 :: 114 :: 117 :: 101 :: rest => some (.bool true, rest)
    | 102 :: 97 :: 108 :: 115 :: 101 :: rest => some (.bool false, rest)
    | 34 :: rest => (parseStringBody rest.length.succ rest).map (fun r => (.str r.1, r.2))
    | 91 :: rest =>
      match skipWs rest with
      | 93 :: rest1 => some (.arr [], rest1)
      | _ => parseElements fuel rest []
    | 123 :: rest =>
      match skipWs rest with
      | 125 :: rest1 => some (.obj [], rest1)
      | _ => parseMembers fuel rest []
    | other => parseNumber other
/-- The elements of a non-empty JSON array, up to the closing bracket. -/
def parseElements : Nat → List Nat → List JsValue → Option (JsValue × List Nat)
  | 0, _, _ => none
  | fuel + 1, cs, acc =>
    match parseValue fuel cs with
    | none => none
    | some (v, rest) =>
      match skipWs rest with
      | 44 :: rest1 => parseElements fuel rest1 (acc ++ [v])
      | 93 :: rest1 => some (.arr (acc ++ [v]), rest1)
      | _ => none
/-- The members of a non-empty JSON object, up to the closing brace. -/
def parseMembers : Nat → List Nat → List (JsString × JsValue) → Option (JsValue × List Nat)
  | 0, _, _ => none
  | fuel + 1, cs, acc =>
    match skipWs cs with
    | 34 :: rest =>
      match parseStringBody rest.length.succ rest with
      | none => none
      | some (k, rest1) =>
        match skipWs rest1 with
        | 58 :: rest2 =>
          match parseValue fuel rest2 with
          | none => none
          | some (v, rest3) =>
            match skipWs rest3 with
            | 44 :: rest4 => parseMembers fuel rest4 (setMember k v acc)
            | 125 :: rest4 => some (.obj (setMember k v acc), rest4)
            | _ => none
        | _ => none
    | _ => none
end

/-- Embeds `JSON.parse`: the value of a JSON text, or a `SyntaxError`. Every recursive call follows
the consumption of a code unit, so the fuel `2 * length + 2` is never exhausted. -/
def jsonParse (text : JsString) : Except JsError JsValue :=
  match parseValue (2 * text.length + 2) text with
  | none => .error .syntaxError
  | some (v, rest) => if (skipWs rest).isEmpty then .ok v else .error .syntaxError


/-! ## The browser around a page -/

/-- Embeds `localStorage`: the entry stored under each key, if any. -/
abbrev Storage := String → Option JsString

/-- Embeds `localStorage.getItem`. -/
def Storage.getItem (st : Storage) (k : String) : Option JsString := st k

/-- Embeds `localStorage.setItem`. -/
def Storage.setItem (st : Storage) (k : String) (v : JsString) : Storage :=
  fun k' => if k' = k then some v else st k'

/-- Requests sent to the backend under `apiBase`. -/
inductive Request where
  /-- Request `GET /swipes/potential/{userId}` -/
  | getPotential (userId : JsValue)
  /-- Request `POST /swipes` with body `{swiperId, targetId, liked}` -/
  | postSwipe (swiperId targetId liked : JsValue)
  /-- Request `GET /matches/user/{userId}` -/
  | getMatches (userId : JsValue)
  /-- Request `POST /auth/login` with body `{email, password}` -/
  | postLogin (email password : JsString)
  /-- Request `POST /auth/register` with body `{name, email, password, bio}` -/
  | postRegister (name email password bio : JsString)
  /-- Request `GET /auth/check-email?email=` -/
  | getCheckEmail (email : JsString)

/-- How a `fetch` settles: the promise rejects, or a response arrives with a status and a
body; `json` is the value `response.json()` resolves to, `none` when it rejects. -/
inductive FetchOutcome where
  | rejected
  | response (status : Nat) (json : Option JsValue)

/-- Embeds `response.ok`. -/
def statusOk (status : Nat) : Bool := 200 ≤ status && status ≤ 299

/-- The backend and the network: the outcome of the n-th request issued from the page. -/
abbrev Env := Nat → FetchOutcome

/-- The parts of the browser both controllers act on. `location` is the page address, as last
assigned to `window.location.href`. -/
structure Browser where
  storage : Storage
  location : String
  fetches : List Request
  jsonReads : Nat

/-- Embeds `fetch(request)`: logs the request and yields the outcome the environment gives it. -/
def Browser.fetch (env : Env) (req : Request) (b : Browser) : FetchOutcome × Browser :=
  (env b.fetches.length, { b with fetches := b.fetches ++ [req] })

/-- Text conversions supplied by the engine: `JSON.stringify(v)` as stored by `setItem`, and
the conversion of a value to a string. -/
structure Platform where
  stringify : JsValue → JsString
  toText : JsValue → JsString

/-! ## `auth.js`: the `AuthManager` controller -/

/-- The `mode` of an `AuthManager`: `'login'`, or anything else (the register form). -/
inductive Mode where
  | login
  | register
  deriving DecidableEq, Repr

/-- An input element: its value and whether its class list holds `invalid` and `valid`. -/
structure Input where
  value : JsString
  invalid : Bool
  valid : Bool

/-- The sign-in / sign-up page as the controller sees it. -/
structure AuthPage where
  mode : Mode
  nameInput : Input
  emailInput : Input
  passwordInput : Input
  bioInput : Input
  nameError : String
  emailError : String
  passwordError : String
  bioError : String
  generalErrorText : JsValue
  generalErrorDisplay : String
  successMessage : Option String
  formDisplay : String
  submitDisabled : Bool
  btnTextOpacity : String
  btnSpinnerDisplay : String
  formLoading : Bool
  /-- Navigation scheduled by `setTimeout`: delay in milliseconds and target. -/
  scheduled : Option (Nat × String)
  browser : Browser

/-- The classes of code unit the email pattern tells apart. -/
inductive UnitClass where
  | space
  | at
  | dot
  | other
  deriving DecidableEq, Repr

/-- The class of a code unit: `\s`, `@`, `.`, or anything else. -/
def classify (c : Nat) : UnitClass :=
  if isWhiteSpace c then .space else if c = 64 then .at else if c = 46 then .dot else .other

/-- The character class `[^\s@]`: a full stop or any other unit that is neither whitespace nor
an at sign. -/
def notSpaceAt : RegularExpression UnitClass :=
  .plus (.char .dot) (.char .other)

/-- The repetition `r+`. -/
def oneOrMore (r : RegularExpression UnitClass) : RegularExpression UnitClass :=
  .comp r (.star r)

/-- The pattern `/^[^\s@]+@[^\s@]+\.[^\s@]+$/`. -/
def emailRegex : RegularExpression UnitClass :=
  .comp (oneOrMore notSpaceAt)
    (.comp (.char .at)
      (.comp (oneOrMore notSpaceAt)
        (.comp (.char .dot) (oneOrMore notSpaceAt))))

/-- The call `emailRegex.test(s)`: the pattern is anchored at both ends, so the whole string
has to match. -/
def emailRegexTest (s : JsString) : Bool :=
  emailRegex.rmatch (s.map classify)

/-- Embeds `showFieldError('nameError', message)` and `nameInput.classList.add('invalid')`. -/
def AuthPage.failName (p : AuthPage) (message : String) : AuthPage :=
  { p with nameError := message, nameInput := { p.nameInput with invalid := true } }

/-- Embeds `validateName()`: the result, and the page with the field marked. -/
def validateName (p : AuthPage) : Bool × AuthPage :=
  let name := trim p.nameInput.value
  if name.length < 2 then
    (false, p.failName "Name must be at least 2 characters long")
  else if name.length > 50 then
    (false, p.failName "Name cannot exceed 50 characters")
  else
    (true, { p with nameError := "",
                    nameInput := { p.nameInput with invalid := false, valid := true } })

/-- Embeds `validateEmail()`. -/
def validateEmail (p : AuthPage) : Bool × AuthPage :=
  let email := trim p.emailInput.value
  if !emailRegexTest email then
    (false, { p with emailError := "Please enter a valid email address",
                     emailInput := { p.emailInput with invalid := true } })
  else
    (true, { p with emailError := "",
                    emailInput := { p.emailInput with invalid := false, valid := true } })

/-- Embeds `validatePassword()`. -/
def validatePassword (p : AuthPage) : Bool × AuthPage :=
  let password := p.passwordInput.value
  if password.length < 6 then
    (false, { p with passwordError := "Password must be at least 6 characters long",
                     passwordInput := { p.passwordInput with invalid := true } })
  else
    (true, { p with passwordError := "",
                    passwordInput := { p.passwordInput with invalid := false, valid := true } })

/-- Embeds `validateForm()`: every applicable validation runs, the name only in register mode. -/
def validateForm (p : AuthPage) : Bool × AuthPage :=
  let isValid := true
  let r1 := if p.mode = .register then
      let r := validateName p
      (r.1 && isValid, r.2)
    else (isValid, p)
  let r2 := validateEmail r1.2
  let isValid2 := r2.1 && r1.1
  let r3 := validatePassword r2.2
  (r3.1 && isValid2, r3.2)

/-- Embeds `setLoading(loading)`. -/
def setLoading (loading : Bool) (p : AuthPage) : AuthPage :=
  if loading then
    { p with submitDisabled := true, btnTextOpacity := "0", btnSpinnerDisplay := "block",
             formLoading := true }
  else
    { p with submitDisabled := false, btnTextOpacity := "1", btnSpinnerDisplay := "none",
             formLoading := false }

/-- Embeds `showError(message)` of the auth page. -/
def AuthPage.showError (message : JsValue) (p : AuthPage) : AuthPage :=
  { p with generalErrorText := message, generalErrorDisplay := "block" }

/-- Embeds `showSuccess(message)`: a message element before the form, the form hidden. -/
def AuthPage.showSuccess (message : String) (p : AuthPage) : AuthPage :=
  { p with successMessage := some message, formDisplay := "none" }

/-- What follows `await response.json()` in `handleLogin` and `handleRegister`, which differ
in the default message and in how they navigate (`delayed`). -/
def storeSession (T : Platform) (delayed : Bool) (fallback : String) (result : JsValue)
    (p : AuthPage) : AuthPage × Option JsError :=
  match getProp result .success with
  | .error err => (p, some err)
  | .ok success =>
    if truthy success then
      match getProp result .user, getProp result .token with
      | .ok user, .ok token =>
        let st := (p.browser.storage.setItem "currentUser" (T.stringify user)).setItem
          "authToken" (T.toText token)
        let p1 := { p with browser := { p.browser with storage := st } }
        if delayed then
          ({ p1.showSuccess "Account created successfully! Redirecting..." with
               scheduled := some (2000, "index.html") }, none)
        else
          ({ p1 with browser := { p1.browser with location := "index.html" } }, none)
      | .error err, _ => (p, some err)
      | _, .error err => (p, some err)
    else
      match getProp result .message with
      | .ok message => (p.showError (orElse message (.str (utf16 fallback))), none)
      | .error err => (p, some err)

/-- What follows `await fetch(...)` in `handleLogin` and `handleRegister`: the body is read
whatever the status. -/
def readResult (T : Platform) (delayed : Bool) (fallback : String)
    (sent : FetchOutcome × Browser) (p : AuthPage) : AuthPage × Option JsError :=
  match sent.1 with
  | .rejected => ({ p with browser := sent.2 }, some .networkError)
  | .response _ json =>
    let p1 := { p with browser := { sent.2 with jsonReads := sent.2.jsonReads + 1 } }
    match json with
    | none => (p1, some .bodyError)
    | some result => storeSession T delayed fallback result p1

/-- Embeds `handleLogin()`: the page once the promise settles, and the error it rejects with. -/
def handleLogin (T : Platform) (env : Env) (p : AuthPage) : AuthPage × Option JsError :=
  let email := trim p.emailInput.value
  let password := p.passwordInput.value
  readResult T false "Login failed" (p.browser.fetch env (.postLogin email password)) p

/-- Embeds `handleRegister()`. -/
def handleRegister (T : Platform) (env : Env) (p : AuthPage) : AuthPage × Option JsError :=
  let name := trim p.nameInput.value
  let email := trim p.emailInput.value
  let password := p.passwordInput.value
  let bio := trim p.bioInput.value
  readResult T true "Registration failed"
    (p.browser.fetch env (.postRegister name email password bio)) p

/-- Embeds `handleSubmit(e)`: nothing is sent unless `validateForm()` holds; an error of the handler
is caught and shown, and the busy state is left in every case. -/
def handleSubmit (T : Platform) (env : Env) (p : AuthPage) : AuthPage :=
  let v := validateForm p
  if !v.1 then v.2
  else
    let p1 := setLoading true v.2
    let r := if p1.mode = .login then handleLogin T env p1 else handleRegister T env p1
    let p2 := match r.2 with
      | some _ => r.1.showError (.str (utf16 "An unexpected error occurred. Please try again."))
      | none => r.1
    setLoading false p2

/-- One rendered `match-item`: the values placed in its heading, paragraph and date. -/
structure MatchEntry where
  name : JsValue
  bio : JsValue
  matchedAt : JsValue

/-- The content of `matchesList`: whether it is the "No matches yet" paragraph, and the match
items appended to it. -/
structure MatchesList where
  noMatchesNote : Bool
  entries : List MatchEntry

/-- The main page as the controller sees it: its two fields, the text and `style.display` of
the elements it writes, the number of `console.error` calls, and the browser. -/
structure App where
  currentUser : JsValue
  currentProfile : JsValue
  userNameText : JsValue
  profileNameText : JsValue
  profileBioText : JsValue
  profileCard : String
  swipeSection : String
  matchesSection : String
  noMoreProfiles : String
  loadingSpinner : String
  errorMessage : String
  errorText : JsValue
  matchNotification : String
  matchedUserNameText : JsValue
  matchesList : MatchesList
  errorsLogged : Nat
  browser : Browser

/-- An element is shown unless its `style.display` is `none`. -/
def visible (display : String) : Bool := display != "none"

/-- Embeds `hideAllSections()`. -/
def hideAllSections (s : App) : App :=
  { s with swipeSection := "none", matchesSection := "none", noMoreProfiles := "none",
           loadingSpinner := "none", errorMessage := "none", matchNotification := "none" }

/-- Embeds `showSwipeSection()`. -/
def showSwipeSection (s : App) : App :=
  { hideAllSections s with swipeSection := "block" }

/-- Embeds `showNoMoreProfiles()`. -/
def showNoMoreProfiles (s : App) : App :=
  { hideAllSections s with noMoreProfiles := "block" }

/-- Embeds `showLoading()`. -/
def showLoading (s : App) : App :=
  { s with loadingSpinner := "block", profileCard := "none", errorMessage := "none" }

/-- Embeds `hideLoading()`. -/
def hideLoading (s : App) : App :=
  { s with loadingSpinner := "none" }

/-- Embeds `showError(message)`. -/
def showError (message : JsValue) (s : App) : App :=
  { hideLoading s with profileCard := "none", errorText := message, errorMessage := "block" }

/-- Embeds `showMatchNotification(userName)`. -/
def showMatchNotification (userName : JsValue) (s : App) : App :=
  { s with matchedUserNameText := userName, matchNotification := "flex" }

/-- A `catch` block: `console.error(...)`, then `showError(message)`. -/
def catchError (message : String) (s : App) : App :=
  showError (.str (utf16 message)) { s with errorsLogged := s.errorsLogged + 1 }

/-- Embeds `fetch(request)` issued from the main page. -/
def App.fetch (env : Env) (req : Request) (s : App) : FetchOutcome × App :=
  ((s.browser.fetch env req).1, { s with browser := (s.browser.fetch env req).2 })

/-- The call `response.json()`, counted. -/
def App.readJson (s : App) : App :=
  { s with browser := { s.browser with jsonReads := s.browser.jsonReads + 1 } }

/-- Embeds `displayProfile(profile)`: throws when `profile` has no properties to read. -/
def displayProfile (profile : JsValue) (s : App) : Except JsError App :=
  match getProp profile .name, getProp profile .bio with
  | .ok name, .ok bio =>
    .ok { s with profileNameText := name,
                 profileBioText := orElse bio (.str (utf16 "No bio available")),
                 profileCard := "block" }
  | .error err, _ => .error err
  | _, .error err => .error err

/-- Embeds `loadNextProfile()`. -/
def loadNextProfile (env : Env) (s : App) : App :=
  if !truthy s.currentUser then s
  else
    let s1 := showLoading s
    match getProp s1.currentUser .id with
    | .error _ => catchError "Failed to load next profile. Please try again." s1
    | .ok userId =>
      let sent := s1.fetch env (.getPotential userId)
      match sent.1 with
      | .rejected => catchError "Failed to load next profile. Please try again." sent.2
      | .response status json =>
        if status = 404 then showNoMoreProfiles sent.2
        else if !statusOk status then
          catchError "Failed to load next profile. Please try again." sent.2
        else
          match json with
          | none => catchError "Failed to load next profile. Please try again." sent.2.readJson
          | some profile =>
            let s2 := { sent.2.readJson with currentProfile := profile }
            match displayProfile profile s2 with
            | .error _ => catchError "Failed to load next profile. Please try again." s2
            | .ok s3 => hideLoading s3

/-- The part of `swipe` after `await response.json()`. -/
def swipeResult (env : Env) (result : JsValue) (s : App) : App :=
  match getProp result .success with
  | .error _ => catchError "Failed to record swipe. Please try again." s
  | .ok success =>
    if truthy success then
      match getProp result .isMatch with
      | .error _ => catchError "Failed to record swipe. Please try again." s
      | .ok isMatch =>
        if truthy isMatch then
          match getProp s.currentProfile .name with
          | .error _ => catchError "Failed to record swipe. Please try again." s
          | .ok name => showMatchNotification name s
        else loadNextProfile env s
    else
      match getProp result .message with
      | .error _ => catchError "Failed to record swipe. Please try again." s
      | .ok message => showError (orElse message (.str (utf16 "Failed to record swipe"))) s

/-- Embeds `swipe(liked)`. -/
def swipe (env : Env) (liked : Bool) (s : App) : App :=
  if !truthy s.currentProfile || !truthy s.currentUser then s
  else
    let s1 := showLoading s
    match getProp s1.currentUser .id, getProp s1.currentProfile .id with
    | .ok swiperId, .ok targetId =>
      let sent := s1.fetch env (.postSwipe swiperId targetId (.bool liked))
      match sent.1 with
      | .rejected => catchError "Failed to record swipe. Please try again." sent.2
      | .response status json =>
        if !statusOk status then catchError "Failed to record swipe. Please try again." sent.2
        else
          match json with
          | none => catchError "Failed to record swipe. Please try again." sent.2.readJson
          | some result => swipeResult env result sent.2.readJson
    | _, _ => catchError "Failed to record swipe. Please try again." s1

/-- The comparison `v === 0`. -/
def strictEqZero : JsValue → Bool
  | .num m e => numIsZero m e
  | _ => false

/-- The body of the `forEach` callback of `displayMatches`: the values one match renders. -/
def matchEntry (m : JsValue) : Except JsError MatchEntry :=
  match getProp m .matchedAt, getProp m .matchedUser with
  | .ok matchedAt, .ok matchedUser =>
    match getProp matchedUser .name, getProp matchedUser .bio with
    | .ok name, .ok bio =>
      .ok ⟨name, orElse bio (.str (utf16 "No bio available")), matchedAt⟩
    | .error err, _ => .error err
    | _, .error err => .error err
  | .error err, _ => .error err
  | _, .error err => .error err

/-- Embeds `matches.forEach(...)` on an array: items are appended until the callback throws. -/
def appendMatches : List JsValue → App → App × Option JsError
  | [], s => (s, none)
  | m :: rest, s =>
    match matchEntry m with
    | .error err => (s, some err)
    | .ok entry =>
      appendMatches rest
        { s with matchesList := { s.matchesList with
            entries := s.matchesList.entries ++ [entry] } }

/-- Embeds `displayMatches(matches)`: the page, and the error thrown if any. A value that is not an
array has no `forEach` to call. -/
def displayMatches (matchesJson : JsValue) (s : App) : App × Option JsError :=
  let s1 := { s with matchesList := ⟨false, []⟩ }
  match getProp matchesJson .length with
  | .error err => (s1, some err)
  | .ok len =>
    if strictEqZero len then ({ s1 with matchesList := ⟨true, []⟩ }, none)
    else
      match matchesJson with
      | .arr items => appendMatches items s1
      | _ => (s1, some .typeError)

/-- Embeds `showMatches()`. -/
def showMatches (env : Env) (s : App) : App :=
  if !truthy s.currentUser then s
  else
    let s1 := showLoading { hideAllSections s with matchesSection := "block" }
    match getProp s1.currentUser .id with
    | .error _ => catchError "Failed to load matches. Please try again." s1
    | .ok userId =>
      let sent := s1.fetch env (.getMatches userId)
      match sent.1 with
      | .rejected => catchError "Failed to load matches. Please try again." sent.2
      | .response status json =>
        if !statusOk status then catchError "Failed to load matches. Please try again." sent.2
        else
          match json with
          | none => catchError "Failed to load matches. Please try again." sent.2.readJson
          | some matchesJson =>
            let shown := displayMatches matchesJson sent.2.readJson
            match shown.2 with
            | some _ => catchError "Failed to load matches. Please try again." shown.1
            | none => hideLoading shown.1

/-- Embeds `hideMatchNotification()`. -/
def hideMatchNotification (env : Env) (s : App) : App :=
  loadNextProfile env { s with matchNotification := "none" }

/-- Embeds `initializeApp()`: the page, and the error thrown if any. -/
def initializeApp (env : Env) (s : App) : App × Option JsError :=
  match getProp s.currentUser .name with
  | .error err => (s, some err)
  | .ok name => (loadNextProfile env (showSwipeSection { s with userNameText := name }), none)

/-- Embeds `checkAuth()`: its result or the error thrown by `JSON.parse`, and the page. -/
def checkAuth (s : App) : Except JsError Bool × App :=
  match s.browser.storage.getItem "currentUser" with
  | none => (.ok false, { s with browser := { s.browser with location := "login.html" } })
  | some userData =>
    if userData.isEmpty then
      (.ok false, { s with browser := { s.browser with location := "login.html" } })
    else
      match jsonParse userData with
      | .error err => (.error err, s)
      | .ok user => (.ok true, { s with currentUser := user })

/-- Embeds `new BrainBuddyApp()` on the loaded page: the page once the constructor has run (and the
first profile load it starts has settled), and the error escaping the constructor if any.
`initializeElements` and `attachEventListeners` look elements up and register listeners. -/
def newBrainBuddyApp (env : Env) (page : App) : App × Option JsError :=
  let s := { page with currentUser := .null, currentProfile := .null }
  match checkAuth s with
  | (.error err, s1) => (s1, some err)
  | (.ok false, s1) => (s1, none)
  | (.ok true, s1) => initializeApp env s1

/-- The main page as loaded, before the controller runs, with the given storage. -/
def App.loaded (storage : Storage) : App :=
  { currentUser := .undefined, currentProfile := .undefined
    userNameText := .str [], profileNameText := .str [], profileBioText := .str []
    profileCard := "", swipeSection := "", matchesSection := "", noMoreProfiles := ""
    loadingSpinner := "", errorMessage := "", errorText := .str []
    matchNotification := "", matchedUserNameText := .str []
    matchesList := ⟨false, []⟩, errorsLogged := 0
    browser := ⟨storage, "index.html", [], 0⟩ }

/-- Storage holding only `currentUser`, with the given text. -/
def Storage.ofUser (text : String) : Storage :=
  Storage.setItem (fun _ => none) "currentUser" (utf16 text)

/-! ## Definitions used in the statements

`PlainUnit` and `EmailShape` follow the words of the specification; the others name states,
counts and predicates of the embedding. -/

/-- A code unit that is neither whitespace nor an at sign. -/
def PlainUnit (c : Nat) : Prop := isWhiteSpace c = false ∧ c ≠ 64

/-- The shape `local@domain.tld` in the words of the specification: one or more units that are
neither whitespace nor `@`, then `@`, then one or more such units, then `.`, then one or more
such units. -/
def EmailShape (s : JsString) : Prop :=
  ∃ l d t : JsString, s = l ++ 64 :: (d ++ 46 :: t) ∧ l ≠ [] ∧ d ≠ [] ∧ t ≠ [] ∧
    (∀ c ∈ l, PlainUnit c) ∧ (∀ c ∈ d, PlainUnit c) ∧ (∀ c ∈ t, PlainUnit c)

/-- A boolean, a number or a string: a value that is neither `null` nor an object. -/
def isPrimitive : JsValue → Bool
  | .bool _ => true
  | .num _ _ => true
  | .str _ => true
  | _ => false

/-- The page on which `swipe` reads the body of its response: loading shown, the swipe
request logged, one body read. -/
def swipeSent (liked : Bool) (swiperId targetId : JsValue) (s : App) : App :=
  { showLoading s with
      browser := { s.browser with
        fetches := s.browser.fetches ++ [.postSwipe swiperId targetId (.bool liked)],
        jsonReads := s.browser.jsonReads + 1 } }

/-- The states of the main page reachable from a completed `initializeApp` through the
controller's operations, each with any answers of the environment. -/
inductive Reachable : App → Prop where
  | initializeApp (env : Env) (s0 s : App) :
      initializeApp env s0 = (s, none) → Reachable s
  | showSwipeSection (s : App) : Reachable s → Reachable (showSwipeSection s)
  | loadNextProfile (env : Env) (s : App) : Reachable s → Reachable (loadNextProfile env s)
  | swipe (env : Env) (liked : Bool) (s : App) : Reachable s → Reachable (swipe env liked s)
  | showMatches (env : Env) (s : App) : Reachable s → Reachable (showMatches env s)
  | hideMatchNotification (env : Env) (s : App) :
      Reachable s → Reachable (hideMatchNotification env s)

/-- How many of the given `style.display` values show their element. -/
def countVisible (displays : List String) : Nat :=
  (displays.filter visible).length

/-- How many of the five regions `swipeSection`, `matchesSection`, `noMoreProfiles`,
`loadingSpinner`, `errorMessage` are visible. -/
def visibleRegions (s : App) : Nat :=
  countVisible [s.swipeSection, s.matchesSection, s.noMoreProfiles, s.loadingSpinner,
    s.errorMessage]

/-- How many of the base regions `swipeSection`, `matchesSection`, `noMoreProfiles` are
visible. -/
def baseRegions (s : App) : Nat :=
  countVisible [s.swipeSection, s.matchesSection, s.noMoreProfiles]

/-- How many of `loadingSpinner`, `errorMessage` are visible. -/
def overlayRegions (s : App) : Nat :=
  countVisible [s.loadingSpinner, s.errorMessage]

/-- The display values behind the view: one base region is `block` and the other two `none`;
the spinner and the error region are `none` or `block`, not both `block`. -/
def ViewInvariant (s : App) : Prop :=
  ((s.swipeSection = "block" ∧ s.matchesSection = "none" ∧ s.noMoreProfiles = "none") ∨
   (s.swipeSection = "none" ∧ s.matchesSection = "block" ∧ s.noMoreProfiles = "none") ∨
   (s.swipeSection = "none" ∧ s.matchesSection = "none" ∧ s.noMoreProfiles = "block")) ∧
  ((s.loadingSpinner = "none" ∧ s.errorMessage = "none") ∨
   (s.loadingSpinner = "block" ∧ s.errorMessage = "none") ∨
   (s.loadingSpinner = "none" ∧ s.errorMessage = "block"))

/-- An input element holding `v`, not yet validated. -/
def Input.ofValue (v : JsString) : Input := ⟨v, false, false⟩

/-- A browser with empty storage and no request issued, showing `location`. -/
def Browser.fresh (location : String) : Browser := ⟨fun _ => none, location, [], 0⟩

/-- The auth page as loaded, with the given field values typed in. -/
def AuthPage.fresh (mode : Mode) (name email password bio : String) : AuthPage :=
  { mode := mode
    nameInput := .ofValue (utf16 name)
    emailInput := .ofValue (utf16 email)
    passwordInput := .ofValue (utf16 password)
    bioInput := .ofValue (utf16 bio)
    nameError := "", emailError := "", passwordError := "", bioError := ""
    generalErrorText := .str [], generalErrorDisplay := "none"
    successMessage := none, formDisplay := "block"
    submitDisabled := false, btnTextOpacity := "1", btnSpinnerDisplay := "none"
    formLoading := false, scheduled := none
    browser := .fresh (if mode = .login then "login.html" else "register.html") }

/-- A platform whose text conversions keep strings and write every other value as `null`. -/
def Platform.sample : Platform :=
  { stringify := fun _ => utf16 "null"
    toText := fun v => match v with
      | .str s => s
      | _ => utf16 "null" }

/-- Storage after a sign-in: both session entries present. -/
def Storage.signedIn : Storage :=
  (Storage.ofUser "\x7b\"id\":1,\"name\":\"Ann\"\x7d").setItem "authToken" (utf16 "t0k3n")

/-- A signed-in user as stored by the auth page. -/
def sampleUser : JsValue :=
  .obj [(utf16 "id", .num 1 0), (utf16 "name", .str (utf16 "Ann"))]

/-- A candidate profile as served by the backend. -/
def sampleProfile : JsValue :=
  .obj [(utf16 "id", .num 2 0), (utf16 "name", .str (utf16 "Bob")),
        (utf16 "bio", .str (utf16 "Maths"))]

/-- The main page showing the candidate `profile` to `user`: the swipe section and the profile
card are displayed, every other region is hidden, no request has been sent. -/
def App.swiping (user profile : JsValue) : App :=
  { currentUser := user, currentProfile := profile
    userNameText := .str (utf16 "Ann"), profileNameText := .str (utf16 "Bob")
    profileBioText := .str (utf16 "Maths")
    profileCard := "block", swipeSection := "block", matchesSection := "none"
    noMoreProfiles := "none", loadingSpinner := "none", errorMessage := "none"
    errorText := .str [], matchNotification := "none", matchedUserNameText := .str []
    matchesList := ⟨false, []⟩, errorsLogged := 0
    browser := ⟨Storage.signedIn, "index.html", [], 0⟩ }

/-- The main page right after the constructor has read the session of `user`. -/
def App.signedIn (user : JsValue) : App :=
  { App.loaded Storage.signedIn with currentUser := user, currentProfile := .null }

/-- The environment answering the requests of a page with the listed outcomes, in order, and
rejecting any further request. -/
def Env.ofList (outcomes : List FetchOutcome) : Env :=
  fun n => outcomes.getD n .rejected

/-- A swipe response body `{success, isMatch}`. -/
def swipeBody (success isMatch : Bool) : JsValue :=
  .obj [(utf16 "success", .bool success), (utf16 "isMatch", .bool isMatch)]

theorem classify_at (c : Nat) : classify c = .at ↔ c = 64 := by
  unfold classify
  constructor
  · intro h
    split_ifs at h with h1 h2 h3
    exact h2
  · rintro rfl
    decide

theorem classify_dot (c : Nat) : classify c = .dot ↔ c = 46 := by
  unfold classify
  constructor
  · intro h
    split_ifs at h with h1 h2 h3
    exact h3
  · rintro rfl
    decide

theorem classify_plain (c : Nat) :
    (classify c = .dot ∨ classify c = .other) ↔ PlainUnit c := by
  unfold classify PlainUnit
  split_ifs <;> simp_all

theorem mem_notSpaceAt (x : List UnitClass) :
    x ∈ notSpaceAt.matches' ↔ x = [.dot] ∨ x = [.other] := by
  unfold notSpaceAt
  rw [RegularExpression.plus_def, RegularExpression.matches'_add, Language.mem_add,
    RegularExpression.matches'_char, RegularExpression.matches'_char]
  exact Iff.rfl

theorem mem_star_notSpaceAt (x : List UnitClass) :
    x ∈ (RegularExpression.star notSpaceAt).matches' ↔ ∀ u ∈ x, u = .dot ∨ u = .other := by
  rw [RegularExpression.matches'_star, Language.mem_kstar]
  constructor
  · rintro ⟨L, rfl, hL⟩ u hu
    rw [List.mem_flatten] at hu
    obtain ⟨y, hy, huy⟩ := hu
    rcases (mem_notSpaceAt y).1 (hL y hy) with rfl | rfl <;> simp at huy <;> simp [huy]
  · intro h
    refine ⟨x.map (fun u => [u]), ?_, ?_⟩
    · clear h
      induction x with
      | nil => rfl
      | cons a t ih => simp [List.flatten] at ih ⊢; exact ih
    · intro y hy
      rw [List.mem_map] at hy
      obtain ⟨u, hu, rfl⟩ := hy
      rw [mem_notSpaceAt]
      rcases h u hu with rfl | rfl <;> simp

theorem mem_oneOrMore_notSpaceAt (x : List UnitClass) :
    x ∈ (oneOrMore notSpaceAt).matches' ↔ x ≠ [] ∧ ∀ u ∈ x, u = .dot ∨ u = .other := by
  unfold oneOrMore
  rw [RegularExpression.comp_def, RegularExpression.matches'_mul, Language.mem_mul]
  constructor
  · rintro ⟨a, ha, b, hb, rfl⟩
    rw [mem_notSpaceAt] at ha
    rw [mem_star_notSpaceAt] at hb
    rcases ha with rfl | rfl <;> simp <;> exact hb
  · rintro ⟨hne, h⟩
    cases x with
    | nil => exact absurd rfl hne
    | cons u rest =>
      refine ⟨[u], ?_, rest, ?_, rfl⟩
      · rw [mem_notSpaceAt]
        rcases h u (List.mem_cons_self _ _) with rfl | rfl <;> simp
      · rw [mem_star_notSpaceAt]
        intro v hv
        exact h v (List.mem_cons_of_mem _ hv)

theorem plain_run (s : JsString) :
    s.map classify ∈ (oneOrMore notSpaceAt).matches' ↔ s ≠ [] ∧ ∀ c ∈ s, PlainUnit c := by
  rw [mem_oneOrMore_notSpaceAt]
  simp only [List.mem_map, forall_exists_index, and_imp, forall_apply_eq_imp_iff₂,
    classify_plain, ne_eq, List.map_eq_nil_iff]

/-- The pattern of `validateEmail` accepts exactly the strings of the shape the specification
describes. -/
theorem emailRegexTest_iff (s : JsString) : emailRegexTest s = true ↔ EmailShape s := by
  unfold emailRegexTest EmailShape
  rw [RegularExpression.rmatch_iff_matches']
  unfold emailRegex
  simp only [RegularExpression.comp_def, RegularExpression.matches'_mul, Language.mem_mul,
    RegularExpression.matches'_char, Set.mem_singleton_iff]
  constructor
  · rintro ⟨a, ha, r1, ⟨x, rfl, r2, ⟨b, hb, r3, ⟨y, rfl, c, hc, rfl⟩, rfl⟩, rfl⟩, h⟩
    simp only [List.singleton_append] at h
    obtain ⟨l, s1, rfl, rfl, h1⟩ := List.append_eq_map_iff.1 h
    cases s1 with
    | nil => simp at h1
    | cons u s2 =>
      simp only [List.map_cons, List.cons.injEq] at h1
      obtain ⟨hu, h2⟩ := h1
      obtain ⟨d, s3, rfl, rfl, h3⟩ := List.append_eq_map_iff.1 h2.symm
      cases s3 with
      | nil => simp at h3
      | cons v t =>
        simp only [List.map_cons, List.cons.injEq] at h3
        obtain ⟨hv, rfl⟩ := h3
        rw [classify_at] at hu
        rw [classify_dot] at hv
        subst hu hv
        rw [plain_run] at ha hb hc
        exact ⟨l, d, t, rfl, ha.1, hb.1, hc.1, ha.2, hb.2, hc.2⟩
  · rintro ⟨l, d, t, rfl, hl, hd, ht, pl, pd, pt⟩
    refine ⟨l.map classify, (plain_run l).2 ⟨hl, pl⟩, _, ⟨_, rfl, _,
      ⟨d.map classify, (plain_run d).2 ⟨hd, pd⟩, _, ⟨_, rfl, t.map classify,
        (plain_run t).2 ⟨ht, pt⟩, rfl⟩, rfl⟩, rfl⟩, ?_⟩
    simp [(classify_at 64).2 rfl, (classify_dot 46).2 rfl]

/-! ### Validation lemmas -/

theorem validateName_fst (p : AuthPage) :
    (validateName p).1 =
      decide (2 ≤ (trim p.nameInput.value).length ∧ (trim p.nameInput.value).length ≤ 50) := by
  unfold validateName
  by_cases h1 : (trim p.nameInput.value).length < 2
  · simp [h1]
  · by_cases h2 : (trim p.nameInput.value).length > 50
    · simp [h1, h2]
    · simp [h1, h2]
      omega

theorem validateEmail_fst (p : AuthPage) :
    (validateEmail p).1 = emailRegexTest (trim p.emailInput.value) := by
  unfold validateEmail
  cases h : emailRegexTest (trim p.emailInput.value) <;> simp [h]

theorem validatePassword_fst (p : AuthPage) :
    (validatePassword p).1 = decide (6 ≤ p.passwordInput.value.length) := by
  unfold validatePassword
  by_cases h : p.passwordInput.value.length < 6
  · simp [h]
  · simp [h]
    omega

theorem validateName_snd (p : AuthPage) :
    (validateName p).2.emailInput = p.emailInput ∧
    (validateName p).2.passwordInput = p.passwordInput ∧
    (validateName p).2.mode = p.mode ∧ (validateName p).2.browser = p.browser := by
  unfold validateName AuthPage.failName
  dsimp only
  split_ifs <;> exact ⟨rfl, rfl, rfl, rfl⟩

theorem validateEmail_snd (p : AuthPage) :
    (validateEmail p).2.passwordInput = p.passwordInput ∧
    (validateEmail p).2.mode = p.mode ∧ (validateEmail p).2.browser = p.browser := by
  unfold validateEmail
  dsimp only
  split_ifs <;> exact ⟨rfl, rfl, rfl⟩

theorem validatePassword_snd (p : AuthPage) :
    (validatePassword p).2.mode = p.mode ∧ (validatePassword p).2.browser = p.browser := by
  unfold validatePassword
  dsimp only
  split_ifs <;> exact ⟨rfl, rfl⟩

/-- The result of `validateForm` is the conjunction of the applicable validations, each on the
field as entered. -/
theorem validateForm_fst (p : AuthPage) :
    (validateForm p).1 =
      ((validatePassword p).1 &&
        ((validateEmail p).1 && (if p.mode = .register then (validateName p).1 else true))) := by
  unfold validateForm
  by_cases hm : p.mode = .register
  · simp only [hm, if_true, Bool.and_true, validatePassword_fst, validateEmail_fst,
      (validateEmail_snd _).1, (validateName_snd p).1, (validateName_snd p).2.1]
  · simp only [hm, if_false, Bool.and_true, validatePassword_fst, validateEmail_fst,
      (validateEmail_snd _).1]

/-- Validation touches the form only, never the browser state. -/
theorem validateForm_browser (p : AuthPage) : (validateForm p).2.browser = p.browser := by
  unfold validateForm
  by_cases hm : p.mode = .register
  · simp only [hm, if_true]
    rw [(validatePassword_snd _).2, (validateEmail_snd _).2.2, (validateName_snd p).2.2.2]
  · simp only [hm, if_false]
    rw [(validatePassword_snd _).2, (validateEmail_snd _).2.2]

/-- A rejected form is not submitted: the browser state (requests, storage, location) is as
before. -/
theorem handleSubmit_blocked (T : Platform) (env : Env) (p : AuthPage)
    (h : (validateForm p).1 = false) : (handleSubmit T env p).browser = p.browser := by
  unfold handleSubmit
  simp [h, validateForm_browser]

/-! ### Claims on field validation -/

/-- C2: an email whose trimmed value is not of the shape `local@domain.tld` fails
`validateEmail` and `validateForm` in either mode, whatever the other fields hold, and
`handleSubmit` then leaves the browser untouched (no request); `validateEmail` succeeds exactly
on the values of that shape. -/
theorem C2_email_shape_gates_submission (T : Platform) (env : Env) (p : AuthPage) :
    ((validateEmail p).1 = true ↔ EmailShape (trim p.emailInput.value)) ∧
    (¬ EmailShape (trim p.emailInput.value) →
      (validateEmail p).1 = false ∧ (validateForm p).1 = false ∧
      (handleSubmit T env p).browser = p.browser ∧
      (handleSubmit T env p).browser.fetches = p.browser.fetches) := by
  have hiff : (validateEmail p).1 = true ↔ EmailShape (trim p.emailInput.value) := by
    rw [validateEmail_fst, emailRegexTest_iff]
  refine ⟨hiff, fun hn => ?_⟩
  have he : (validateEmail p).1 = false := by
    cases h : (validateEmail p).1
    · rfl
    · exact absurd (hiff.1 h) hn
  have hf : (validateForm p).1 = false := by
    rw [validateForm_fst, he]; simp
  have hb := handleSubmit_blocked T env p hf
  exact ⟨he, hf, hb, by rw [hb]⟩

/-- C2 at concrete pages: `a@b` (no top-level part) blocks a login and a registration whose
other fields are valid, and `a@b.co` passes `validateEmail`. -/
theorem C2_email_shape_gates_submission_witness :
    (validateForm (AuthPage.fresh .login "" "a@b" "secret" "")).1 = false ∧
    (handleSubmit Platform.sample (fun _ => .rejected)
        (AuthPage.fresh .register "Ann" " a@b " "secret" "")).browser.fetches = [] ∧
    (validateEmail (AuthPage.fresh .login "" " a@b.co" "secret" "")).1 = true :=
  have bad : ∀ m n s, emailRegexTest (trim (AuthPage.fresh m n s "secret" "").emailInput.value)
      = false → ¬ EmailShape (trim (AuthPage.fresh m n s "secret" "").emailInput.value) :=
    fun _ _ _ h hs => by rw [← emailRegexTest_iff, h] at hs; exact Bool.noConfusion hs
  ⟨((C2_email_shape_gates_submission Platform.sample (fun _ => .rejected)
      (AuthPage.fresh .login "" "a@b" "secret" "")).2 (bad _ _ _ (by decide))).2.1,
   ((C2_email_shape_gates_submission Platform.sample (fun _ => .rejected)
      (AuthPage.fresh .register "Ann" " a@b " "secret" "")).2 (bad _ _ _ (by decide))).2.2.2,
   (C2_email_shape_gates_submission Platform.sample (fun _ => .rejected)
      (AuthPage.fresh .login "" " a@b.co" "secret" "")).1.2
        ((emailRegexTest_iff _).1 (by decide))⟩

/-- C3: `validatePassword` succeeds exactly when the untrimmed password has at least 6 code
units; a shorter password makes `validateForm` fail and `handleSubmit` send nothing; a password
of exactly 6 units lets `validateForm` succeed when the email and, in register mode, the name
are valid. -/
theorem C3_password_min_length (T : Platform) (env : Env) (p : AuthPage) :
    ((validatePassword p).1 = true ↔ 6 ≤ p.passwordInput.value.length) ∧
    (p.passwordInput.value.length < 6 →
      (validateForm p).1 = false ∧ (handleSubmit T env p).browser = p.browser ∧
      (handleSubmit T env p).browser.fetches = p.browser.fetches) ∧
    (p.passwordInput.value.length = 6 → (validateEmail p).1 = true →
      (p.mode = .register → (validateName p).1 = true) → (validateForm p).1 = true) := by
  refine ⟨by rw [validatePassword_fst]; simp, fun hlt => ?_, fun h6 he hn => ?_⟩
  · have hf : (validateForm p).1 = false := by
      rw [validateForm_fst, validatePassword_fst]
      simp only [Bool.and_eq_false_imp, decide_eq_true_eq]
      omega
    have hb := handleSubmit_blocked T env p hf
    exact ⟨hf, hb, by rw [hb]⟩
  · rw [validateForm_fst, validatePassword_fst, he]
    by_cases hm : p.mode = .register
    · simp [hm, hn hm, h6]
    · simp [hm, h6]

/-- C3 at concrete pages: `12345` blocks the submission, `123456` is accepted in both modes
and `handleSubmit` then sends the request. -/
theorem C3_password_min_length_witness :
    (handleSubmit Platform.sample (fun _ => .rejected)
        (AuthPage.fresh .login "" "a@b.co" "12345" "")).browser.fetches = [] ∧
    (validateForm (AuthPage.fresh .login "" "a@b.co" "123456" "")).1 = true ∧
    (validateForm (AuthPage.fresh .register "Al" "a@b.co" "123456" "")).1 = true :=
  ⟨((C3_password_min_length Platform.sample (fun _ => .rejected)
      (AuthPage.fresh .login "" "a@b.co" "12345" "")).2.1 (by decide)).2.2,
   (C3_password_min_length Platform.sample (fun _ => .rejected)
      (AuthPage.fresh .login "" "a@b.co" "123456" "")).2.2 (by decide) (by decide)
        (by decide),
   (C3_password_min_length Platform.sample (fun _ => .rejected)
      (AuthPage.fresh .register "Al" "a@b.co" "123456" "")).2.2 (by decide) (by decide)
        (by decide)⟩

/-- C4, as amended: `validateName` succeeds exactly when the trimmed name has between 2 and 50
code units; a trimmed length of exactly 2 or 50 passes, of 1 or 51 fails; for a name without
leading or trailing whitespace this is the length of the value as entered. -/
theorem C4_name_trimmed_length (p : AuthPage) :
    ((validateName p).1 = true ↔
      2 ≤ (trim p.nameInput.value).length ∧ (trim p.nameInput.value).length ≤ 50) ∧
    ((trim p.nameInput.value).length = 2 ∨ (trim p.nameInput.value).length = 50 →
      (validateName p).1 = true) ∧
    ((trim p.nameInput.value).length = 1 ∨ (trim p.nameInput.value).length = 51 →
      (validateName p).1 = false) ∧
    (trim p.nameInput.value = p.nameInput.value →
      ((validateName p).1 = true ↔
        2 ≤ p.nameInput.value.length ∧ p.nameInput.value.length ≤ 50)) := by
  have h : (validateName p).1 = true ↔
      2 ≤ (trim p.nameInput.value).length ∧ (trim p.nameInput.value).length ≤ 50 := by
    rw [validateName_fst]; simp
  refine ⟨h, fun hl => h.2 (by omega), fun hl => ?_, fun ht => by rw [← ht]; exact h⟩
  cases hv : (validateName p).1
  · rfl
  · have := h.1 hv
    omega

/-- C4 at concrete pages: `Al` (2 units) passes, `A` fails, and so does a name of 51
units. -/
theorem C4_name_trimmed_length_witness :
    (validateName (AuthPage.fresh .register "Al" "a@b.co" "secret" "")).1 = true ∧
    (validateName (AuthPage.fresh .register " A " "a@b.co" "secret" "")).1 = false ∧
    (validateName { AuthPage.fresh .register "" "a@b.co" "secret" "" with
        nameInput := .ofValue (List.replicate 51 97) }).1 = false :=
  ⟨(C4_name_trimmed_length (AuthPage.fresh .register "Al" "a@b.co" "secret" "")).2.1
      (Or.inl (by decide)),
   (C4_name_trimmed_length (AuthPage.fresh .register " A " "a@b.co" "secret" "")).2.2.1
      (Or.inl (by decide)),
   (C4_name_trimmed_length { AuthPage.fresh .register "" "a@b.co" "secret" "" with
        nameInput := .ofValue (List.replicate 51 97) }).2.2.1 (Or.inr (by decide))⟩

/-- C4 as stated fails: the two-unit name made of a space and `a` is rejected, and the
51-unit name `ab` followed by 49 spaces is accepted. -/
theorem C4_untrimmed_length_counterexample :
    (AuthPage.fresh .register " a" "a@b.co" "secret" "").nameInput.value.length = 2 ∧
    (validateName (AuthPage.fresh .register " a" "a@b.co" "secret" "")).1 = false ∧
    ({ AuthPage.fresh .register "" "a@b.co" "secret" "" with
        nameInput := .ofValue (97 :: 98 :: List.replicate 49 32) }).nameInput.value.length = 51 ∧
    (validateName { AuthPage.fresh .register "" "a@b.co" "secret" "" with
        nameInput := .ofValue (97 :: 98 :: List.replicate 49 32) }).1 = true := by
  refine ⟨by decide, by decide, by decide, by decide⟩

/-! ## Theorems: the session gate -/

theorem newBrainBuddyApp_absent (env : Env) (page : App)
    (h : page.browser.storage.getItem "currentUser" = none) :
    newBrainBuddyApp env page =
      ({ page with currentUser := .null, currentProfile := .null,
                   browser := { page.browser with location := "login.html" } }, none) := by
  simp [newBrainBuddyApp, checkAuth, h]

theorem newBrainBuddyApp_empty (env : Env) (page : App)
    (h : page.browser.storage.getItem "currentUser" = some []) :
    newBrainBuddyApp env page =
      ({ page with currentUser := .null, currentProfile := .null,
                   browser := { page.browser with location := "login.html" } }, none) := by
  simp [newBrainBuddyApp, checkAuth, h]

theorem newBrainBuddyApp_unparseable (env : Env) (page : App) (text : JsString) (err : JsError)
    (hne : text ≠ []) (h : page.browser.storage.getItem "currentUser" = some text)
    (hp : jsonParse text = .error err) :
    newBrainBuddyApp env page =
      ({ page with currentUser := .null, currentProfile := .null }, some err) := by
  simp [newBrainBuddyApp, checkAuth, h, hp, hne]

theorem newBrainBuddyApp_parsed (env : Env) (page : App) (text : JsString) (user : JsValue)
    (hne : text ≠ []) (h : page.browser.storage.getItem "currentUser" = some text)
    (hp : jsonParse text = .ok user) :
    newBrainBuddyApp env page =
      initializeApp env { page with currentUser := user, currentProfile := .null } := by
  simp [newBrainBuddyApp, checkAuth, h, hp, hne]

theorem getProp_of_truthy (v : JsValue) (f : Field) (h : truthy v = true) :
    ∃ x, getProp v f = .ok x := by
  cases v <;> simp [truthy] at h <;> simp [getProp]
  all_goals split_ifs <;> simp

theorem displayProfile_browser (profile : JsValue) (s s1 : App)
    (h : displayProfile profile s = .ok s1) : s1.browser = s.browser := by
  unfold displayProfile at h
  split at h <;> simp at h
  subst h
  rfl

/-- What a profile load does to the browser when a user is signed in: exactly one request, the
candidate fetch for that user; storage and location stay. -/
theorem loadNextProfile_browser (env : Env) (s : App) (id : JsValue)
    (ht : truthy s.currentUser = true) (hid : getProp s.currentUser .id = .ok id) :
    (loadNextProfile env s).browser.fetches = s.browser.fetches ++ [.getPotential id] ∧
    (loadNextProfile env s).browser.location = s.browser.location ∧
    (loadNextProfile env s).browser.storage = s.browser.storage := by
  have hid1 : getProp (showLoading s).currentUser .id = .ok id := hid
  unfold loadNextProfile
  simp only [ht, Bool.not_true, Bool.false_eq_true, if_false, hid1]
  cases hout : env s.browser.fetches.length with
  | rejected =>
    simp [App.fetch, Browser.fetch, hout, catchError, showError, hideLoading, showLoading]
  | response status json =>
    simp only [App.fetch, Browser.fetch, showLoading, hout]
    split_ifs
    · simp [showNoMoreProfiles, hideAllSections]
    · simp [catchError, showError, hideLoading]
    · cases json with
      | none => simp [catchError, showError, hideLoading, App.readJson]
      | some profile =>
        simp only []
        split
        · simp [catchError, showError, hideLoading, App.readJson]
        · rename_i s3 h3
          have := displayProfile_browser _ _ _ h3
          simp [hideLoading, this, App.readJson]

/-- Without a signed-in user a profile load does nothing. -/
theorem loadNextProfile_guard (env : Env) (s : App) (h : truthy s.currentUser = false) :
    loadNextProfile env s = s := by
  simp [loadNextProfile, h]

theorem loadNextProfile_location (env : Env) (s : App) :
    (loadNextProfile env s).browser.location = s.browser.location := by
  cases ht : truthy s.currentUser
  · rw [loadNextProfile_guard env s ht]
  · obtain ⟨id, hid⟩ := getProp_of_truthy s.currentUser .id ht
    exact (loadNextProfile_browser env s id ht hid).2.1

theorem initializeApp_location (env : Env) (s : App) :
    (initializeApp env s).1.browser.location = s.browser.location := by
  unfold initializeApp
  split
  · rfl
  · simp only [loadNextProfile_location]
    rfl

theorem getProp_primitive (v : JsValue) (h : isPrimitive v = true) :
    getProp v .name = .ok .undefined ∧ getProp v .id = .ok .undefined := by
  cases v <;> simp [isPrimitive] at h <;> simp [getProp]

/-- C1, as amended: an absent or empty `currentUser` entry makes the constructor redirect to
`login.html` with no request sent and no exception. A non-empty entry never redirects: when it
is not JSON the `SyntaxError` of `JSON.parse` escapes the constructor, when it parses to `null`
a `TypeError` escapes from `initializeApp`, both before any request; when it parses to a
boolean, a number or a string the constructor returns normally, having sent nothing if the
value is falsy and the candidate request for the user `undefined` if it is truthy. -/
theorem C1_session_gate (env : Env) (page : App) :
    ((page.browser.storage.getItem "currentUser" = none ∨
        page.browser.storage.getItem "currentUser" = some []) →
      (newBrainBuddyApp env page).1.browser.location = "login.html" ∧
      (newBrainBuddyApp env page).1.browser.fetches = page.browser.fetches ∧
      (newBrainBuddyApp env page).2 = none) ∧
    (∀ text : JsString, text ≠ [] →
      page.browser.storage.getItem "currentUser" = some text →
      (newBrainBuddyApp env page).1.browser.location = page.browser.location ∧
      (∀ err, jsonParse text = .error err →
        (newBrainBuddyApp env page).2 = some err ∧
        (newBrainBuddyApp env page).1.browser.fetches = page.browser.fetches) ∧
      (jsonParse text = .ok .null →
        (newBrainBuddyApp env page).2 = some .typeError ∧
        (newBrainBuddyApp env page).1.browser.fetches = page.browser.fetches) ∧
      (∀ v, jsonParse text = .ok v → isPrimitive v = true →
        (newBrainBuddyApp env page).2 = none ∧
        (newBrainBuddyApp env page).1.browser.fetches =
          page.browser.fetches ++ (if truthy v then [.getPotential .undefined] else []))) := by
  refine ⟨?_, ?_⟩
  · rintro (h | h)
    · rw [newBrainBuddyApp_absent env page h]; exact ⟨rfl, rfl, rfl⟩
    · rw [newBrainBuddyApp_empty env page h]; exact ⟨rfl, rfl, rfl⟩
  · intro text hne h
    refine ⟨?_, ?_, ?_, ?_⟩
    · cases hp : jsonParse text with
      | error err => rw [newBrainBuddyApp_unparseable env page text err hne h hp]
      | ok user =>
        rw [newBrainBuddyApp_parsed env page text user hne h hp, initializeApp_location]
    · intro err hp
      rw [newBrainBuddyApp_unparseable env page text err hne h hp]
      exact ⟨rfl, rfl⟩
    · intro hp
      rw [newBrainBuddyApp_parsed env page text _ hne h hp]
      exact ⟨rfl, rfl⟩
    · intro v hp hv
      rw [newBrainBuddyApp_parsed env page text v hne h hp]
      obtain ⟨hname, hid⟩ := getProp_primitive v hv
      unfold initializeApp
      simp only [hname]
      refine ⟨trivial, ?_⟩
      cases ht : truthy v
      · rw [loadNextProfile_guard _ _ ht]
        simp [showSwipeSection, hideAllSections]
      · rw [(loadNextProfile_browser env _ .undefined ht hid).1]
        simp [showSwipeSection, hideAllSections]

/-- C1 at concrete pages: no entry at all, the entry `{`, the entry `null` and the
entry `0`. -/
theorem C1_session_gate_witness :
    (newBrainBuddyApp (fun _ => .rejected) (App.loaded (fun _ => none))).1.browser.location
      = "login.html" ∧
    (newBrainBuddyApp (fun _ => .rejected) (App.loaded (Storage.ofUser "\x7b"))).2
      = some .syntaxError ∧
    (newBrainBuddyApp (fun _ => .rejected) (App.loaded (Storage.ofUser "null"))).2
      = some .typeError ∧
    (newBrainBuddyApp (fun _ => .rejected) (App.loaded (Storage.ofUser "0"))).2 = none :=
  ⟨((C1_session_gate (fun _ => .rejected) (App.loaded (fun _ => none))).1 (Or.inl rfl)).1,
   (((C1_session_gate (fun _ => .rejected) (App.loaded (Storage.ofUser "\x7b"))).2
      (utf16 "\x7b") (by decide) rfl).2.1 .syntaxError rfl).1,
   ((C1_session_gate (fun _ => .rejected) (App.loaded (Storage.ofUser "null"))).2
      (utf16 "null") (by decide) rfl).2.2.1 rfl |>.1,
   ((C1_session_gate (fun _ => .rejected) (App.loaded (Storage.ofUser "0"))).2
      (utf16 "0") (by decide) rfl).2.2.2 (.num 0 0) rfl rfl |>.1⟩

/-- C1 as stated fails on malformed entries. With the entry `{` a `SyntaxError` escapes the
constructor and the page stays on `index.html`; the entry `null` likewise ends in a
`TypeError`; with the entry `true` the constructor does not redirect and the candidate request
is sent. -/
theorem C1_malformed_entry_counterexample :
    (newBrainBuddyApp (fun _ => .rejected) (App.loaded (Storage.ofUser "\x7b"))).2
      = some .syntaxError ∧
    (newBrainBuddyApp (fun _ => .rejected) (App.loaded (Storage.ofUser "\x7b"))).1.browser.location
      = "index.html" ∧
    (newBrainBuddyApp (fun _ => .rejected) (App.loaded (Storage.ofUser "null"))).2
      = some .typeError ∧
    (newBrainBuddyApp (fun _ => .rejected)
      (App.loaded (Storage.ofUser "null"))).1.browser.location = "index.html" ∧
    (newBrainBuddyApp (fun _ => .rejected) (App.loaded (Storage.ofUser "true"))).1.browser.location
      = "index.html" ∧
    (newBrainBuddyApp (fun _ => .rejected) (App.loaded (Storage.ofUser "true"))).1.browser.fetches
      = [.getPotential .undefined] := by
  refine ⟨by decide, by decide, by decide, by decide, by decide, rfl⟩

/-! ## Theorems: the swipe loop -/

/-- With a user and a profile present and an ok response carrying a body, `swipe` sends one
swipe request and continues with the body. -/
theorem swipe_ok (env : Env) (liked : Bool) (s : App) (status : Nat) (result : JsValue)
    (swiperId targetId : JsValue)
    (hu : truthy s.currentUser = true) (hp : truthy s.currentProfile = true)
    (hsw : getProp s.currentUser .id = .ok swiperId)
    (htg : getProp s.currentProfile .id = .ok targetId)
    (hout : env s.browser.fetches.length = .response status (some result))
    (hok : statusOk status = true) :
    swipe env liked s = swipeResult env result (swipeSent liked swiperId targetId s) := by
  have h1 : getProp (showLoading s).currentUser .id = .ok swiperId := hsw
  have h2 : getProp (showLoading s).currentProfile .id = .ok targetId := htg
  unfold swipe
  simp only [hu, hp, Bool.not_true, Bool.or_self, Bool.false_eq_true, if_false, h1, h2]
  simp only [App.fetch, Browser.fetch, showLoading, hout, hok, Bool.not_true,
    Bool.false_eq_true, if_false]
  rfl

theorem visible_none : visible "none" = false := by decide

theorem visible_block : visible "block" = true := by decide

theorem displayProfile_overlay (profile : JsValue) (s s1 : App)
    (h : displayProfile profile s = .ok s1) :
    s1.matchNotification = s.matchNotification ∧
    s1.matchedUserNameText = s.matchedUserNameText := by
  unfold displayProfile at h
  split at h <;> simp at h
  subst h
  exact ⟨rfl, rfl⟩

/-- A profile load leaves the match notification as it was or hides it. -/
theorem loadNextProfile_notification (env : Env) (s : App) :
    (loadNextProfile env s).matchNotification = s.matchNotification ∨
    (loadNextProfile env s).matchNotification = "none" := by
  unfold loadNextProfile
  split_ifs
  · exact Or.inl rfl
  · dsimp only
    split
    · exact Or.inl rfl
    · split
      · exact Or.inl rfl
      · split_ifs
        · exact Or.inr rfl
        · exact Or.inl rfl
        · split
          · exact Or.inl rfl
          · split
            · exact Or.inl rfl
            · rename_i s3 h3
              exact Or.inl (displayProfile_overlay _ _ _ h3).1

/-- A profile load never writes `matchedUserName`. -/
theorem loadNextProfile_matchedUserName (env : Env) (s : App) :
    (loadNextProfile env s).matchedUserNameText = s.matchedUserNameText := by
  unfold loadNextProfile
  split_ifs
  · rfl
  · dsimp only
    split
    · rfl
    · split
      · rfl
      · split_ifs
        · rfl
        · rfl
        · split
          · rfl
          · split
            · rfl
            · rename_i s3 h3
              exact (displayProfile_overlay _ _ _ h3).2

/-- C6: with a user and a profile present, when `swipe(liked)` gets an ok response whose body
has truthy `success` and falsy `isMatch`, `swipe` calls `loadNextProfile` once: after the swipe
request exactly one further request is sent, the candidate fetch for the user, whatever the
environment answers to it; the match notification is left as it was or hidden, and
`matchedUserName` is not written. -/
theorem C6_no_match_fetches_once (env : Env) (liked : Bool) (s : App) (status : Nat)
    (result success isMatch swiperId targetId : JsValue)
    (hu : truthy s.currentUser = true) (hp : truthy s.currentProfile = true)
    (hsw : getProp s.currentUser .id = .ok swiperId)
    (htg : getProp s.currentProfile .id = .ok targetId)
    (hout : env s.browser.fetches.length = .response status (some result))
    (hok : statusOk status = true)
    (hs : getProp result .success = .ok success) (hst : truthy success = true)
    (hm : getProp result .isMatch = .ok isMatch) (hmf : truthy isMatch = false) :
    swipe env liked s = loadNextProfile env (swipeSent liked swiperId targetId s) ∧
    (swipe env liked s).browser.fetches =
      s.browser.fetches ++
        [.postSwipe swiperId targetId (.bool liked), .getPotential swiperId] ∧
    ((swipe env liked s).matchNotification = s.matchNotification ∨
      (swipe env liked s).matchNotification = "none") ∧
    (swipe env liked s).matchedUserNameText = s.matchedUserNameText := by
  have hsw1 : swipe env liked s = loadNextProfile env (swipeSent liked swiperId targetId s) := by
    rw [swipe_ok env liked s status result swiperId targetId hu hp hsw htg hout hok]
    unfold swipeResult
    simp only [hs, hst, if_true, hm, hmf, Bool.false_eq_true, if_false]
  refine ⟨hsw1, ?_, ?_, ?_⟩
  · rw [hsw1, (loadNextProfile_browser env (swipeSent liked swiperId targetId s) swiperId
      hu hsw).1]
    simp [swipeSent]
  · rw [hsw1]
    exact loadNextProfile_notification env _
  · rw [hsw1]
    exact loadNextProfile_matchedUserName env _

/-- C6 at a concrete page: Ann passes on Bob, no match, and the next candidate is fetched
(here the backend has none left). -/
theorem C6_no_match_fetches_once_witness :
    (swipe (Env.ofList [.response 200 (some (swipeBody true false)), .response 404 none]) false
      (App.swiping sampleUser sampleProfile)).browser.fetches =
      (App.swiping sampleUser sampleProfile).browser.fetches ++
        [.postSwipe (.num 1 0) (.num 2 0) (.bool false), .getPotential (.num 1 0)] :=
  (C6_no_match_fetches_once
    (Env.ofList [.response 200 (some (swipeBody true false)), .response 404 none]) false
    (App.swiping sampleUser sampleProfile) 200 (swipeBody true false) (.bool true)
    (.bool false) (.num 1 0) (.num 2 0) rfl rfl rfl rfl rfl rfl rfl rfl rfl rfl).2.1

/-- C7: with a user signed in, when the candidate fetch answers 404, `loadNextProfile` shows
the no-more-profiles region with the error region and the spinner hidden, does not read the
body (the outcome is the same whatever the body), keeps the current profile, and sends no
request beyond the candidate fetch. -/
theorem C7_not_found_shows_empty_state (env : Env) (s : App) (json : Option JsValue)
    (userId : JsValue)
    (hu : truthy s.currentUser = true) (hid : getProp s.currentUser .id = .ok userId)
    (hout : env s.browser.fetches.length = .response 404 json) :
    visible (loadNextProfile env s).noMoreProfiles = true ∧
    visible (loadNextProfile env s).errorMessage = false ∧
    visible (loadNextProfile env s).loadingSpinner = false ∧
    (loadNextProfile env s).browser.jsonReads = s.browser.jsonReads ∧
    (loadNextProfile env s).currentProfile = s.currentProfile ∧
    (loadNextProfile env s).browser.fetches = s.browser.fetches ++ [.getPotential userId] ∧
    loadNextProfile env s =
      showNoMoreProfiles
        { showLoading s with
            browser := { s.browser with
              fetches := s.browser.fetches ++ [.getPotential userId] } } := by
  have hid1 : getProp (showLoading s).currentUser .id = .ok userId := hid
  have h : loadNextProfile env s =
      showNoMoreProfiles
        { showLoading s with
            browser := { s.browser with
              fetches := s.browser.fetches ++ [.getPotential userId] } } := by
    unfold loadNextProfile
    simp only [hu, Bool.not_true, Bool.false_eq_true, if_false, hid1]
    simp only [App.fetch, Browser.fetch, showLoading, hout, if_true]
  rw [h]
  exact ⟨visible_block, visible_none, visible_none, rfl, rfl, rfl, rfl⟩

/-- C7 at a concrete page: Ann asks for the next candidate and the backend answers 404. -/
theorem C7_not_found_shows_empty_state_witness :
    visible (loadNextProfile (Env.ofList [.response 404 none])
      (App.swiping sampleUser sampleProfile)).noMoreProfiles = true ∧
    (loadNextProfile (Env.ofList [.response 404 none])
      (App.swiping sampleUser sampleProfile)).browser.fetches =
      (App.swiping sampleUser sampleProfile).browser.fetches ++ [.getPotential (.num 1 0)] :=
  ⟨(C7_not_found_shows_empty_state (Env.ofList [.response 404 none])
      (App.swiping sampleUser sampleProfile) none (.num 1 0) rfl rfl rfl).1,
   (C7_not_found_shows_empty_state (Env.ofList [.response 404 none])
      (App.swiping sampleUser sampleProfile) none (.num 1 0) rfl rfl rfl).2.2.2.2.2.1⟩

/-! ## Theorems: the view -/

theorem displayProfile_view (profile : JsValue) (s s1 : App)
    (h : displayProfile profile s = .ok s1) :
    s1.swipeSection = s.swipeSection ∧ s1.matchesSection = s.matchesSection ∧
    s1.noMoreProfiles = s.noMoreProfiles ∧ s1.loadingSpinner = s.loadingSpinner ∧
    s1.errorMessage = s.errorMessage := by
  unfold displayProfile at h
  split at h <;> simp at h
  subst h
  exact ⟨rfl, rfl, rfl, rfl, rfl⟩

theorem showSwipeSection_view (s : App) : ViewInvariant (showSwipeSection s) :=
  ⟨Or.inl ⟨rfl, rfl, rfl⟩, Or.inl ⟨rfl, rfl⟩⟩

theorem loadNextProfile_view (env : Env) (s : App) (h : ViewInvariant s) :
    ViewInvariant (loadNextProfile env s) := by
  obtain ⟨hb, ho⟩ := h
  unfold loadNextProfile
  split_ifs
  · exact ⟨hb, ho⟩
  · dsimp only
    split
    · exact ⟨hb, Or.inr (Or.inr ⟨rfl, rfl⟩)⟩
    · split
      · exact ⟨hb, Or.inr (Or.inr ⟨rfl, rfl⟩)⟩
      · split_ifs
        · exact ⟨Or.inr (Or.inr ⟨rfl, rfl, rfl⟩), Or.inl ⟨rfl, rfl⟩⟩
        · exact ⟨hb, Or.inr (Or.inr ⟨rfl, rfl⟩)⟩
        · split
          · exact ⟨hb, Or.inr (Or.inr ⟨rfl, rfl⟩)⟩
          · split
            · exact ⟨hb, Or.inr (Or.inr ⟨rfl, rfl⟩)⟩
            · rename_i s3 h3
              obtain ⟨h1, h2, h3', _, h5⟩ := displayProfile_view _ _ _ h3
              refine ⟨?_, Or.inl ⟨rfl, h5⟩⟩
              show (s3.swipeSection = _ ∧ s3.matchesSection = _ ∧ s3.noMoreProfiles = _) ∨
                (s3.swipeSection = _ ∧ s3.matchesSection = _ ∧ s3.noMoreProfiles = _) ∨
                (s3.swipeSection = _ ∧ s3.matchesSection = _ ∧ s3.noMoreProfiles = _)
              rw [h1, h2, h3']
              exact hb

theorem swipeResult_view (env : Env) (result : JsValue) (s : App) (h : ViewInvariant s) :
    ViewInvariant (swipeResult env result s) := by
  obtain ⟨hb, ho⟩ := h
  unfold swipeResult
  split
  · exact ⟨hb, Or.inr (Or.inr ⟨rfl, rfl⟩)⟩
  · split_ifs
    · split
      · exact ⟨hb, Or.inr (Or.inr ⟨rfl, rfl⟩)⟩
      · split_ifs
        · split
          · exact ⟨hb, Or.inr (Or.inr ⟨rfl, rfl⟩)⟩
          · exact ⟨hb, ho⟩
        · exact loadNextProfile_view env s ⟨hb, ho⟩
    · split
      · exact ⟨hb, Or.inr (Or.inr ⟨rfl, rfl⟩)⟩
      · exact ⟨hb, Or.inr (Or.inr ⟨rfl, rfl⟩)⟩

theorem swipe_view (env : Env) (liked : Bool) (s : App) (h : ViewInvariant s) :
    ViewInvariant (swipe env liked s) := by
  obtain ⟨hb, ho⟩ := h
  unfold swipe
  split_ifs
  · exact ⟨hb, ho⟩
  · dsimp only
    split
    · split
      · exact ⟨hb, Or.inr (Or.inr ⟨rfl, rfl⟩)⟩
      · split_ifs
        · exact ⟨hb, Or.inr (Or.inr ⟨rfl, rfl⟩)⟩
        · split
          · exact ⟨hb, Or.inr (Or.inr ⟨rfl, rfl⟩)⟩
          · exact swipeResult_view env _ _ ⟨hb, Or.inr (Or.inl ⟨rfl, rfl⟩)⟩
    · exact ⟨hb, Or.inr (Or.inr ⟨rfl, rfl⟩)⟩

theorem appendMatches_view (items : List JsValue) (s : App) :
    (appendMatches items s).1.swipeSection = s.swipeSection ∧
    (appendMatches items s).1.matchesSection = s.matchesSection ∧
    (appendMatches items s).1.noMoreProfiles = s.noMoreProfiles ∧
    (appendMatches items s).1.loadingSpinner = s.loadingSpinner ∧
    (appendMatches items s).1.errorMessage = s.errorMessage ∧
    (appendMatches items s).1.browser = s.browser := by
  induction items generalizing s with
  | nil => exact ⟨rfl, rfl, rfl, rfl, rfl, rfl⟩
  | cons m rest ih =>
    unfold appendMatches
    split
    · exact ⟨rfl, rfl, rfl, rfl, rfl, rfl⟩
    · exact ih _

theorem displayMatches_view (matchesJson : JsValue) (s : App) :
    (displayMatches matchesJson s).1.swipeSection = s.swipeSection ∧
    (displayMatches matchesJson s).1.matchesSection = s.matchesSection ∧
    (displayMatches matchesJson s).1.noMoreProfiles = s.noMoreProfiles ∧
    (displayMatches matchesJson s).1.loadingSpinner = s.loadingSpinner ∧
    (displayMatches matchesJson s).1.errorMessage = s.errorMessage ∧
    (displayMatches matchesJson s).1.browser = s.browser := by
  unfold displayMatches
  dsimp only
  split
  · exact ⟨rfl, rfl, rfl, rfl, rfl, rfl⟩
  · split_ifs
    · exact ⟨rfl, rfl, rfl, rfl, rfl, rfl⟩
    · split
      · exact appendMatches_view _ _
      · exact ⟨rfl, rfl, rfl, rfl, rfl, rfl⟩

theorem showMatches_after_display (message : String) (matchesJson : JsValue) (a : App)
    (ha : a.swipeSection = "none" ∧ a.matchesSection = "block" ∧ a.noMoreProfiles = "none" ∧
      a.errorMessage = "none") :
    ViewInvariant (catchError message (displayMatches matchesJson a).1) ∧
    ViewInvariant (hideLoading (displayMatches matchesJson a).1) := by
  obtain ⟨h1, h2, h3, _, h5, _⟩ := displayMatches_view matchesJson a
  obtain ⟨a1, a2, a3, a5⟩ := ha
  exact ⟨⟨Or.inr (Or.inl ⟨h1.trans a1, h2.trans a2, h3.trans a3⟩), Or.inr (Or.inr ⟨rfl, rfl⟩)⟩,
    ⟨Or.inr (Or.inl ⟨h1.trans a1, h2.trans a2, h3.trans a3⟩), Or.inl ⟨rfl, h5.trans a5⟩⟩⟩

theorem showMatches_view (env : Env) (s : App) (h : ViewInvariant s) :
    ViewInvariant (showMatches env s) := by
  unfold showMatches
  split_ifs
  · exact h
  · dsimp only
    split
    · exact ⟨Or.inr (Or.inl ⟨rfl, rfl, rfl⟩), Or.inr (Or.inr ⟨rfl, rfl⟩)⟩
    · split
      · exact ⟨Or.inr (Or.inl ⟨rfl, rfl, rfl⟩), Or.inr (Or.inr ⟨rfl, rfl⟩)⟩
      · split_ifs
        · exact ⟨Or.inr (Or.inl ⟨rfl, rfl, rfl⟩), Or.inr (Or.inr ⟨rfl, rfl⟩)⟩
        · split
          · exact ⟨Or.inr (Or.inl ⟨rfl, rfl, rfl⟩), Or.inr (Or.inr ⟨rfl, rfl⟩)⟩
          · split
            · exact (showMatches_after_display _ _ _ ⟨rfl, rfl, rfl, rfl⟩).1
            · exact (showMatches_after_display "" _ _ ⟨rfl, rfl, rfl, rfl⟩).2

theorem hideMatchNotification_view (env : Env) (s : App) (h : ViewInvariant s) :
    ViewInvariant (hideMatchNotification env s) :=
  loadNextProfile_view env _ h

/-- Every reachable state of the main page satisfies the view invariant. -/
theorem reachable_view (s : App) (h : Reachable s) : ViewInvariant s := by
  induction h with
  | initializeApp env s0 s hinit =>
    unfold initializeApp at hinit
    split at hinit
    · simp at hinit
    · simp only [Prod.mk.injEq, and_true] at hinit
      rw [← hinit]
      exact loadNextProfile_view env _ (showSwipeSection_view _)
  | showSwipeSection s _ _ => exact showSwipeSection_view s
  | loadNextProfile env s _ ih => exact loadNextProfile_view env s ih
  | swipe env liked s _ ih => exact swipe_view env liked s ih
  | showMatches env s _ ih => exact showMatches_view env s ih
  | hideMatchNotification env s _ ih => exact hideMatchNotification_view env s ih

/-- C8, as amended: in every state reachable from `initializeApp` through the controller's
operations, exactly one of the base regions `swipeSection`, `matchesSection`,
`noMoreProfiles` is visible and at most one of `loadingSpinner`, `errorMessage` is visible on
top of it, so that one or two of the five regions are visible. -/
theorem C8_view_regions (s : App) (h : Reachable s) :
    baseRegions s = 1 ∧ overlayRegions s ≤ 1 ∧ 1 ≤ visibleRegions s ∧ visibleRegions s ≤ 2 := by
  obtain ⟨hb, ho⟩ := reachable_view s h
  rcases hb with ⟨h1, h2, h3⟩ | ⟨h1, h2, h3⟩ | ⟨h1, h2, h3⟩ <;>
    rcases ho with ⟨h4, h5⟩ | ⟨h4, h5⟩ | ⟨h4, h5⟩ <;>
    simp only [baseRegions, overlayRegions, visibleRegions, h1, h2, h3, h4, h5] <;>
    decide

/-- C8 at a concrete reachable state: the page of Ann after her first candidate arrived. -/
theorem C8_view_regions_witness :
    baseRegions (initializeApp (Env.ofList [.response 200 (some sampleProfile)])
      (App.signedIn sampleUser)).1 = 1 ∧
    overlayRegions (initializeApp (Env.ofList [.response 200 (some sampleProfile)])
      (App.signedIn sampleUser)).1 ≤ 1 ∧
    1 ≤ visibleRegions (initializeApp (Env.ofList [.response 200 (some sampleProfile)])
      (App.signedIn sampleUser)).1 ∧
    visibleRegions (initializeApp (Env.ofList [.response 200 (some sampleProfile)])
      (App.signedIn sampleUser)).1 ≤ 2 :=
  C8_view_regions _
    (Reachable.initializeApp (Env.ofList [.response 200 (some sampleProfile)])
      (App.signedIn sampleUser) _ rfl)

/-- C8 as stated fails: when the first candidate fetch is answered 500, `initializeApp` ends
in a reachable state where both `swipeSection` and `errorMessage` are visible. -/
theorem C8_two_regions_counterexample :
    Reachable (initializeApp (Env.ofList [.response 500 none]) (App.signedIn sampleUser)).1 ∧
    visible (initializeApp (Env.ofList [.response 500 none])
      (App.signedIn sampleUser)).1.swipeSection = true ∧
    visible (initializeApp (Env.ofList [.response 500 none])
      (App.signedIn sampleUser)).1.errorMessage = true ∧
    visibleRegions (initializeApp (Env.ofList [.response 500 none])
      (App.signedIn sampleUser)).1 = 2 :=
  ⟨Reachable.initializeApp (Env.ofList [.response 500 none]) (App.signedIn sampleUser) _ rfl,
    by decide, by decide, by decide⟩

/-! ## Theorems: the loading spinner -/

/-- Once a profile load has sent its request, the spinner is hidden when it completes. -/
theorem loadNextProfile_spinner (env : Env) (s : App) (h : truthy s.currentUser = true) :
    (loadNextProfile env s).loadingSpinner = "none" := by
  unfold loadNextProfile
  simp only [h, Bool.not_true, Bool.false_eq_true, if_false]
  split
  · rfl
  · split
    · rfl
    · split_ifs
      · rfl
      · rfl
      · split
        · rfl
        · split
          · rfl
          · rfl

/-- Once `showMatches` has sent its request, the spinner is hidden when it completes. -/
theorem showMatches_spinner (env : Env) (s : App) (h : truthy s.currentUser = true) :
    (showMatches env s).loadingSpinner = "none" := by
  unfold showMatches
  simp only [h, Bool.not_true, Bool.false_eq_true, if_false]
  split
  · rfl
  · split
    · rfl
    · split_ifs
      · rfl
      · split
        · rfl
        · split
          · rfl
          · rfl

/-- Every path of `swipe` but the match hides the spinner: when `swipe` runs with a user and a
profile, either the spinner is hidden at completion or the match notification has just been
shown over a spinner still displayed. -/
theorem swipe_spinner (env : Env) (liked : Bool) (s : App)
    (hu : truthy s.currentUser = true) (hp : truthy s.currentProfile = true) :
    (swipe env liked s).loadingSpinner = "none" ∨
    ((swipe env liked s).loadingSpinner = "block" ∧
      (swipe env liked s).matchNotification = "flex") := by
  unfold swipe
  simp only [hu, hp, Bool.not_true, Bool.or_self, Bool.false_eq_true, if_false]
  split
  · split
    · exact Or.inl rfl
    · split_ifs
      · exact Or.inl rfl
      · split
        · exact Or.inl rfl
        · unfold swipeResult
          split
          · exact Or.inl rfl
          · split_ifs
            · split
              · exact Or.inl rfl
              · split_ifs
                · split
                  · exact Or.inl rfl
                  · exact Or.inr ⟨rfl, rfl⟩
                · exact Or.inl (loadNextProfile_spinner env _ hu)
            · split
              · exact Or.inl rfl
              · exact Or.inl rfl
  · exact Or.inl rfl

/-- C9, the failing case: Ann likes Bob and the backend reports a match; when `swipe` has
completed the loading spinner is still displayed, under the match notification. -/
theorem C9_spinner_left_after_match :
    visible (swipe (Env.ofList [.response 200 (some (swipeBody true true))]) true
      (App.swiping sampleUser sampleProfile)).loadingSpinner = true ∧
    (swipe (Env.ofList [.response 200 (some (swipeBody true true))]) true
      (App.swiping sampleUser sampleProfile)).matchNotification = "flex" := by
  exact ⟨by decide, by decide⟩

/-! ## Theorems: the session entries -/

end BrainBuddy
